import Mathlib

/-!
Verification of the model-export pipeline in
`candid-inference-impl/scripts/export_model_template.py`.

The script is a single-file export pipeline: synthetic data generation
(`create_sample_data`), ONNX export with a hardcoded `[None, 5]` input shape
(`export_to_onnx`), a literal feature-metadata structure
(`export_feature_metadata`), Platt-scaling calibration export
(`calibrate_and_export`), and an orchestrating `main` that writes three
artifact files in sequence.

Conventions of the embedding:
- `numpy` float values are modelled as rationals `ℚ` where the script only
  produces and compares exactly representable values, and as reals `ℝ` for
  the calibration mathematics.
- `numpy` random draws are modelled by explicit draw streams: a stream
  `u : ℕ → ℚ` of unit draws for `np.random.uniform`/`np.random.random`
  (draw `i` is the unit sample used for element `i`, so
  `uniform(lo, hi)` is `lo + (hi - lo) * u i`), and streams `r : ℕ → ℕ`
  of raw naturals for `np.random.randint(a, b)`, reduced into range as
  `a + r i % (b - a)`.
- File writes are modelled by the list of file names written, in order.
-/

/-- Feature `type` tag, `"NUMERIC"` or `"CATEGORICAL"` in the JSON. -/
inductive FeatureType
  | NUMERIC
  | CATEGORICAL
deriving DecidableEq

/-- One entry of the `features` list built by `export_feature_metadata`
(lines 120-162): `name`, `type`, `index`, and for categorical features the
label-to-code `mapping` (numeric features carry no `mapping` key, hence
`Option`). -/
structure FeatureSpec where
  name : String
  type : FeatureType
  index : Nat
  mapping : Option (List (String × ℚ))
deriving DecidableEq

/-- The literal `metadata["features"]` list of `export_feature_metadata`,
entry by entry. -/
def feature_metadata : List FeatureSpec :=
  [ { name := "claim_amount", type := FeatureType.NUMERIC, index := 0,
      mapping := none },
    { name := "patient_age", type := FeatureType.NUMERIC, index := 1,
      mapping := none },
    { name := "procedure_category", type := FeatureType.CATEGORICAL, index := 2,
      mapping := some [("SURGERY", 0), ("DIAGNOSTIC", 1), ("THERAPY", 2),
                       ("EMERGENCY", 3), ("UNKNOWN", 4)] },
    { name := "provider_state", type := FeatureType.CATEGORICAL, index := 3,
      mapping := some [("CA", 0), ("NY", 1), ("TX", 2),
                       ("FL", 3), ("UNKNOWN", 4)] },
    { name := "prior_denials", type := FeatureType.NUMERIC, index := 4,
      mapping := none } ]

/-- The `UNKNOWN` fallback code of a feature's mapping, when present. -/
def unknownCode (f : FeatureSpec) : Option ℚ :=
  f.mapping.bind (fun m => m.lookup "UNKNOWN")

/-- The `UNKNOWN` fallback code of the feature at position `j` of the
metadata's `features` list. -/
def unknownCodeAt (j : Nat) : Option ℚ :=
  (feature_metadata.get? j).bind unknownCode

/-- A mapping has an `UNKNOWN` entry whose code collides with no other
code of the same mapping. -/
def hasUniqueUnknown (m : List (String × ℚ)) : Bool :=
  match m.lookup "UNKNOWN" with
  | none => false
  | some c => (m.filter (fun p => p.1 != "UNKNOWN")).all (fun p => p.2 != c)

/-- C4: the `index` values across the emitted feature schema (N = 5
features) form a permutation of 0..N-1: each index occurs exactly once,
with no gaps and no duplicates. -/
theorem c4_index_permutation :
    (feature_metadata.map FeatureSpec.index).Perm
      (List.range feature_metadata.length) := by
  decide

/-- C8: the `features` list is emitted in index order: the element at each
list position has its `index` field equal to that position, so list
position and declared input-vector column coincide. -/
theorem c8_features_in_index_order :
    feature_metadata.map FeatureSpec.index = List.range feature_metadata.length := by
  decide

/-- C5: every CATEGORICAL feature of the emitted metadata has an `UNKNOWN`
fallback entry in its mapping whose numeric code differs from every other
code in that same mapping. -/
theorem c5_unknown_fallback_unique (f : FeatureSpec) (hf : f ∈ feature_metadata)
    (hcat : f.type = FeatureType.CATEGORICAL)
    (m : List (String × ℚ)) (hm : f.mapping = some m) :
    hasUniqueUnknown m = true := by
  fin_cases hf <;> simp only [feature_metadata] at hcat hm <;>
    first
      | exact absurd hcat (by decide)
      | (injection hm with hm; subst hm; decide)

/-- Witness for C5 at the `procedure_category` feature. -/
theorem c5_unknown_fallback_unique_witness :
    ({ name := "procedure_category", type := FeatureType.CATEGORICAL, index := 2,
       mapping := some [("SURGERY", 0), ("DIAGNOSTIC", 1), ("THERAPY", 2),
                        ("EMERGENCY", 3), ("UNKNOWN", 4)] } : FeatureSpec) ∈ feature_metadata
    ∧ hasUniqueUnknown [("SURGERY", 0), ("DIAGNOSTIC", 1), ("THERAPY", 2),
                        ("EMERGENCY", 3), ("UNKNOWN", 4)] = true :=
  ⟨by decide,
   c5_unknown_fallback_unique
     { name := "procedure_category", type := FeatureType.CATEGORICAL, index := 2,
       mapping := some [("SURGERY", 0), ("DIAGNOSTIC", 1), ("THERAPY", 2),
                        ("EMERGENCY", 3), ("UNKNOWN", 4)] }
     (by decide) rfl _ rfl⟩

/-- Number of synthetic samples in `create_sample_data` (`n_samples = 1000`). -/
def n_samples : Nat := 1000

/-- `claim_amounts = np.random.uniform(1000, 50000, n_samples)`: sample `i`
from the unit draw stream `u`. -/
def claim_amounts (u : ℕ → ℚ) (i : ℕ) : ℚ := 1000 + (50000 - 1000) * u i

/-- `patient_ages = np.random.randint(18, 90, n_samples)`. -/
def patient_ages (r : ℕ → ℕ) (i : ℕ) : ℕ := 18 + r i % (90 - 18)

/-- `procedure_categories = np.random.randint(0, 4, n_samples)`
(0-3: SURGERY, DIAGNOSTIC, THERAPY, EMERGENCY). -/
def procedure_categories (r : ℕ → ℕ) (i : ℕ) : ℕ := r i % 4

/-- `provider_states = np.random.randint(0, 4, n_samples)`
(0-3: CA, NY, TX, FL). -/
def provider_states (r : ℕ → ℕ) (i : ℕ) : ℕ := r i % 4

/-- `prior_denials = np.random.randint(0, 5, n_samples)`. -/
def prior_denials (r : ℕ → ℕ) (i : ℕ) : ℕ := r i % 5

/-- Row `i` of `X = np.column_stack([claim_amounts, patient_ages,
procedure_categories, provider_states, prior_denials])`. -/
def sampleRow (uC : ℕ → ℚ) (rA rP rS rD : ℕ → ℕ) (i : ℕ) : List ℚ :=
  [claim_amounts uC i, (patient_ages rA i : ℚ), (procedure_categories rP i : ℚ),
   (provider_states rS i : ℚ), (prior_denials rD i : ℚ)]

/-- The feature matrix `X` returned by `create_sample_data`, one row per
sample. -/
def create_sample_data_X (uC : ℕ → ℚ) (rA rP rS rD : ℕ → ℕ) : List (List ℚ) :=
  (List.range n_samples).map (sampleRow uC rA rP rS rD)

/-- `denial_prob = (claim_amounts > 20000).astype(float) * 0.5 +
(prior_denials > 2).astype(float) * 0.3`. -/
def denial_prob (uC : ℕ → ℚ) (rD : ℕ → ℕ) (i : ℕ) : ℚ :=
  (if claim_amounts uC i > 20000 then 1 else 0) * (5/10)
    + (if prior_denials rD i > 2 then 1 else 0) * (3/10)

/-- The label vector `y = (np.random.random(n_samples) < denial_prob)
.astype(int)` returned by `create_sample_data`; `uY` is the unit draw
stream of `np.random.random`. -/
def create_sample_data_y (uC : ℕ → ℚ) (rD : ℕ → ℕ) (uY : ℕ → ℚ) : List ℕ :=
  (List.range n_samples).map (fun i => if uY i < denial_prob uC rD i then 1 else 0)

/-- The constant-zero natural draw stream, used to instantiate witnesses. -/
def zConst : ℕ → ℕ := fun _ => 0

/-- The constant-zero rational draw stream, used to instantiate witnesses. -/
def zConstQ : ℕ → ℚ := fun _ => 0

/-- C9: the categorical training columns never take the `UNKNOWN` fallback
code: for every row of `X`, the values at indices 2 and 3 lie in
0, 1, 2, 3 and differ from the corresponding mapping's `UNKNOWN` code. -/
theorem c9_unknown_code_unreachable (uC : ℕ → ℚ) (rA rP rS rD : ℕ → ℕ)
    (row : List ℚ) (hrow : row ∈ create_sample_data_X uC rA rP rS rD)
    (j : ℕ) (hj : j = 2 ∨ j = 3) (v : ℚ) (hv : row.get? j = some v)
    (c : ℚ) (hc : unknownCodeAt j = some c) :
    (v = 0 ∨ v = 1 ∨ v = 2 ∨ v = 3) ∧ v ≠ c := by
  rcases List.mem_map.mp hrow with ⟨i, -, rfl⟩
  rcases hj with rfl | rfl
  · have hc4 : c = 4 := by
      have h2 : unknownCodeAt 2 = some 4 := by decide
      rw [h2] at hc
      exact (Option.some.injEq _ _ ▸ hc).symm
    subst hc4
    simp only [sampleRow, List.get?] at hv
    have hv' : ((procedure_categories rP i : ℕ) : ℚ) = v := Option.some.inj hv
    subst hv'
    have h4 : procedure_categories rP i < 4 := Nat.mod_lt _ (by norm_num)
    set k := procedure_categories rP i with hk
    clear_value k
    interval_cases k <;> norm_num
  · have hc4 : c = 4 := by
      have h3 : unknownCodeAt 3 = some 4 := by decide
      rw [h3] at hc
      exact (Option.some.injEq _ _ ▸ hc).symm
    subst hc4
    simp only [sampleRow, List.get?] at hv
    have hv' : ((provider_states rS i : ℕ) : ℚ) = v := Option.some.inj hv
    subst hv'
    have h4 : provider_states rS i < 4 := Nat.mod_lt _ (by norm_num)
    set k := provider_states rS i with hk
    clear_value k
    interval_cases k <;> norm_num

/-- Witness for C9 at the all-zero draw streams and the first generated
row, column 2. -/
theorem c9_unknown_code_unreachable_witness :
    ([(1000 : ℚ), 18, 0, 0, 0] ∈ create_sample_data_X zConstQ zConst zConst zConst zConst)
    ∧ ([(1000 : ℚ), 18, 0, 0, 0].get? 2 = some 0)
    ∧ (unknownCodeAt 2 = some 4)
    ∧ (((0 : ℚ) = 0 ∨ (0 : ℚ) = 1 ∨ (0 : ℚ) = 2 ∨ (0 : ℚ) = 3) ∧ (0 : ℚ) ≠ 4) :=
  ⟨List.mem_map.mpr ⟨0, List.mem_range.mpr (by decide),
      by norm_num [sampleRow, claim_amounts, patient_ages, procedure_categories,
                   provider_states, prior_denials, zConstQ, zConst]⟩,
   by decide, by decide,
   c9_unknown_code_unreachable zConstQ zConst zConst zConst zConst
     [(1000 : ℚ), 18, 0, 0, 0]
     (List.mem_map.mpr ⟨0, List.mem_range.mpr (by decide),
      by norm_num [sampleRow, claim_amounts, patient_ages, procedure_categories,
                   provider_states, prior_denials, zConstQ, zConst]⟩)
     2 (Or.inl rfl) 0 (by decide) 4 (by decide)⟩

/-- C10: every label of the vector `y` returned by `create_sample_data` is
0 or 1, so labels handed to the downstream calibration fit satisfy its
binary-label precondition. -/
theorem c10_labels_binary (uC : ℕ → ℚ) (rD : ℕ → ℕ) (uY : ℕ → ℚ)
    (v : ℕ) (hv : v ∈ create_sample_data_y uC rD uY) :
    v = 0 ∨ v = 1 := by
  rcases List.mem_map.mp hv with ⟨i, -, rfl⟩
  by_cases h : uY i < denial_prob uC rD i <;> simp [h]

/-- Witness for C10 at the all-zero draw streams and the first label. -/
theorem c10_labels_binary_witness :
    ((0 : ℕ) ∈ create_sample_data_y zConstQ zConst zConstQ)
    ∧ ((0 : ℕ) = 0 ∨ (0 : ℕ) = 1) :=
  ⟨List.mem_map.mpr ⟨0, List.mem_range.mpr (by decide),
      by norm_num [denial_prob, claim_amounts, prior_denials, zConstQ, zConst]⟩,
   c10_labels_binary zConstQ zConst zConstQ 0
     (List.mem_map.mpr ⟨0, List.mem_range.mpr (by decide),
      by norm_num [denial_prob, claim_amounts, prior_denials, zConstQ, zConst]⟩)⟩

/-- The artifact produced by `export_to_onnx`: one declared input named
`float_input` of symbolic-batch shape `[None, inputWidth]`, converted at
`target_opset`. -/
structure ModelArtifact where
  inputName : String
  inputWidth : Nat
  targetOpset : Nat
deriving DecidableEq

/-- `export_to_onnx` (lines 93-108): builds the artifact with the hardcoded
`initial_type = [('float_input', FloatTensorType([None, 5]))]` and
`target_opset=12`, and writes `claim_denial_model.onnx`; the result is the
artifact together with the list of files written. -/
def export_to_onnx : ModelArtifact × List String :=
  ({ inputName := "float_input", inputWidth := 5, targetOpset := 12 },
   ["claim_denial_model.onnx"])

/-- Export-stage error taxonomy of the spec (section 7). -/
inductive ExportError
  | ShapeMismatch
  | UnsupportedOpsetVersion
deriving DecidableEq

/-- Modelled from the spec: the width-checked exporter of section 4.2,
`export(model, input_width, target_format_version)`, which the script does
not implement (its `export_to_onnx` hardcodes the width 5 with no check):
`input_width` must equal the Feature Schema's feature count, checked before
export, failing with `ExportError::ShapeMismatch` otherwise; on failure no
artifact file is written. -/
def export_checked (input_width : Nat) :
    Except ExportError (ModelArtifact × List String) :=
  if input_width = feature_metadata.length then
    Except.ok
      ({ inputName := "float_input", inputWidth := input_width, targetOpset := 12 },
       ["claim_denial_model.onnx"])
  else Except.error ExportError.ShapeMismatch

/-- The files the width-checked exporter leaves on disk: those of a
successful export, and none on failure. -/
def exportedFiles (input_width : Nat) : List String :=
  match export_checked input_width with
  | Except.ok (_, fs) => fs
  | Except.error _ => []

/-- C1: the exported artifact's declared input width equals the feature
schema's count N = 5, which is also the width of every training row; the
width-checked export of the spec fails with `ExportError::ShapeMismatch`
on any other width and writes no artifact file. -/
theorem c1_shape_agreement (w : Nat) (hw : w ≠ feature_metadata.length)
    (uC : ℕ → ℚ) (rA rP rS rD : ℕ → ℕ) (row : List ℚ)
    (hrow : row ∈ create_sample_data_X uC rA rP rS rD) :
    export_to_onnx.1.inputWidth = feature_metadata.length
    ∧ row.length = feature_metadata.length
    ∧ export_checked w = Except.error ExportError.ShapeMismatch
    ∧ exportedFiles w = [] := by
  refine ⟨rfl, ?_, ?_, ?_⟩
  · rcases List.mem_map.mp hrow with ⟨i, -, rfl⟩
    rfl
  · unfold export_checked
    rw [if_neg hw]
  · unfold exportedFiles export_checked
    rw [if_neg hw]

/-- Witness for C1 at width 3 and the first training row of the all-zero
draw streams. -/
theorem c1_shape_agreement_witness :
    (3 ≠ feature_metadata.length)
    ∧ ([(1000 : ℚ), 18, 0, 0, 0] ∈
        create_sample_data_X zConstQ zConst zConst zConst zConst)
    ∧ (export_to_onnx.1.inputWidth = feature_metadata.length
       ∧ [(1000 : ℚ), 18, 0, 0, 0].length = feature_metadata.length
       ∧ export_checked 3 = Except.error ExportError.ShapeMismatch
       ∧ exportedFiles 3 = []) :=
  ⟨by decide,
   List.mem_map.mpr ⟨0, List.mem_range.mpr (by decide),
      by norm_num [sampleRow, claim_amounts, patient_ages, procedure_categories,
                   provider_states, prior_denials, zConstQ, zConst]⟩,
   c1_shape_agreement 3 (by decide) zConstQ zConst zConst zConst zConst
     [(1000 : ℚ), 18, 0, 0, 0]
     (List.mem_map.mpr ⟨0, List.mem_range.mpr (by decide),
      by norm_num [sampleRow, claim_amounts, patient_ages, procedure_categories,
                   provider_states, prior_denials, zConstQ, zConst]⟩)⟩

/-- Modelled from the spec: the state of sklearn's fitted sigmoid
calibrator (not part of the repository), holding the `a_` and `b_`
parameters the script extracts; per the script's comment these are the
`a` and `b` in `P = 1 / (1 + exp(a * score + b))`. -/
structure SigmoidCalibrator where
  a : ℝ
  b : ℝ

/-- Modelled from the spec: the predicted probability of the fitted
sigmoid calibrator for a raw score, `1 / (1 + exp(a_ * s + b_))`. -/
noncomputable def SigmoidCalibrator.predict (c : SigmoidCalibrator) (s : ℝ) : ℝ :=
  1 / (1 + Real.exp (c.a * s + c.b))

/-- The probability-correction formula the inference runtime applies to a
raw score given the exported parameters:
`corrected = 1 / (1 + exp(a * raw_score + b))` (sections 4.3 and 6 of the
spec, and the script's comment above the parameter extraction). -/
noncomputable def corrected (a b s : ℝ) : ℝ :=
  1 / (1 + Real.exp (a * s + b))

/-- Calibration-stage error taxonomy of the spec (section 7). -/
inductive CalibrationError
  | InsufficientData
  | SingleClass
deriving DecidableEq

/-- Modelled from the spec: the Calibrator `fit` of section 4.3, whose
solving step the script delegates to sklearn's `CalibratedClassifierCV`
(not part of the repository): it requires
`len(raw_scores) == len(labels) > 0` and both classes present in `labels`,
failing with `CalibrationError::InsufficientData` or
`CalibrationError::SingleClass` otherwise; the maximum-likelihood solver
itself is abstracted as the `solver` argument. -/
def fit (solver : List ℝ → List ℕ → SigmoidCalibrator)
    (raw_scores : List ℝ) (labels : List ℕ) :
    Except CalibrationError SigmoidCalibrator :=
  if raw_scores.length = labels.length ∧ 0 < labels.length then
    if 0 ∈ labels ∧ 1 ∈ labels then Except.ok (solver raw_scores labels)
    else Except.error CalibrationError.SingleClass
  else Except.error CalibrationError.InsufficientData

/-- A constant solver, used to instantiate witnesses and counterexamples. -/
noncomputable def solver0 : List ℝ → List ℕ → SigmoidCalibrator :=
  fun _ _ => { a := 1, b := 0 }

/-- A fixed two-element raw-score list, used to instantiate witnesses and
counterexamples. -/
noncomputable def scores0 : List ℝ := [0, 1]

/-- C3: a calibration fit whose label vector is all-0 or all-1 fails with
`CalibrationError::SingleClass`, and in particular never returns the
defaulted parameter pair `(a = 1, b = 0)`. -/
theorem c3_single_class_rejection (solver : List ℝ → List ℕ → SigmoidCalibrator)
    (raw_scores : List ℝ) (labels : List ℕ)
    (hlen : raw_scores.length = labels.length) (hpos : 0 < labels.length)
    (h01 : (∀ v ∈ labels, v = 0) ∨ (∀ v ∈ labels, v = 1)) :
    fit solver raw_scores labels = Except.error CalibrationError.SingleClass
    ∧ fit solver raw_scores labels ≠ Except.ok { a := 1, b := 0 } := by
  have hnc : ¬ (0 ∈ labels ∧ 1 ∈ labels) := by
    rcases h01 with h | h
    · rintro ⟨-, h1⟩
      exact absurd (h _ h1) (by decide)
    · rintro ⟨h0, -⟩
      exact absurd (h _ h0) (by decide)
  have hfit : fit solver raw_scores labels = Except.error CalibrationError.SingleClass := by
    unfold fit
    rw [if_pos ⟨hlen, hpos⟩, if_neg hnc]
  exact ⟨hfit, by rw [hfit]; exact fun h => Except.noConfusion h⟩

/-- Witness for C3 at the all-zero label vector `[0, 0]`. -/
theorem c3_single_class_rejection_witness :
    (scores0.length = ([0, 0] : List ℕ).length)
    ∧ (0 < ([0, 0] : List ℕ).length)
    ∧ (fit solver0 scores0 [0, 0] = Except.error CalibrationError.SingleClass
       ∧ fit solver0 scores0 [0, 0] ≠ Except.ok { a := 1, b := 0 }) :=
  ⟨rfl, by decide,
   c3_single_class_rejection solver0 scores0 [0, 0] rfl (by decide)
     (Or.inl (by decide))⟩

/-- The JSON-compatible content of `calibration_params.json`: top-level
`type` plus the `parameters` object, kept as an ordered field list to
record exactly which fields the script emits. -/
structure CalibrationFile where
  type : String
  parameters : List (String × ℝ)

/-- The `calibration_params` dict built by `calibrate_and_export`
(lines 192-203): `type = "PLATT_SCALING"` and
`parameters = {a: calibrator.a_, b: calibrator.b_}`. -/
def calibration_params_file (c : SigmoidCalibrator) : CalibrationFile :=
  { type := "PLATT_SCALING", parameters := [("a", c.a), ("b", c.b)] }

/-- `calibrate_and_export` (lines 171-210): fit the sigmoid calibration on
the validation data, then write `calibration_params.json`; a failed fit
propagates (the script has no handler) and writes nothing. `scores` stands
for the trained model's raw scores on `X_val`. -/
def calibrate_and_export (solver : List ℝ → List ℕ → SigmoidCalibrator)
    (scores : List ℝ) (y_val : List ℕ) :
    Except CalibrationError (CalibrationFile × List String) :=
  match fit solver scores y_val with
  | Except.error e => Except.error e
  | Except.ok c => Except.ok (calibration_params_file c, ["calibration_params.json"])

/-- C6: the calibration parameters file always has top-level
`type = "PLATT_SCALING"` and a parameters record holding exactly the two
numeric fields `a` and `b`, whose values feed the runtime's correction
`1 / (1 + exp(a * raw_score + b))` — the same sign convention the fitted
calibrator's own predicted probability uses. -/
theorem c6_calibration_file_contract (c : SigmoidCalibrator) :
    (calibration_params_file c).type = "PLATT_SCALING"
    ∧ (calibration_params_file c).parameters = [("a", c.a), ("b", c.b)]
    ∧ ∀ s : ℝ, corrected c.a c.b s = c.predict s :=
  ⟨rfl, rfl, fun _ => rfl⟩

/-- C7: for fixed `(a, b)` with `a > 0`, the corrected probability
`1 / (1 + exp(a * s + b))` is strictly decreasing in the raw score `s`:
raw scores keep a fixed relative order after calibration, determined by
the sign of `a`. -/
theorem c7_calibration_monotone (a b s1 s2 : ℝ) (ha : 0 < a) (hs : s1 < s2) :
    corrected a b s2 < corrected a b s1 := by
  unfold corrected
  have h1 : a * s1 + b < a * s2 + b :=
    add_lt_add_right (mul_lt_mul_of_pos_left hs ha) b
  have h2 : Real.exp (a * s1 + b) < Real.exp (a * s2 + b) :=
    Real.exp_lt_exp.mpr h1
  have h3 : (0 : ℝ) < 1 + Real.exp (a * s1 + b) := by positivity
  exact one_div_lt_one_div_of_lt h3 (by linarith)

/-- Witness for C7 at `a = 1`, `b = 0`, `s1 = 0`, `s2 = 1`. -/
theorem c7_calibration_monotone_witness :
    (0 : ℝ) < 1 ∧ (0 : ℝ) < 1 ∧ corrected 1 0 1 < corrected 1 0 0 :=
  ⟨zero_lt_one, zero_lt_one, c7_calibration_monotone 1 0 0 1 zero_lt_one zero_lt_one⟩

/-- The three artifact file names `main` is meant to produce. -/
def all_three_artifacts : List String :=
  ["claim_denial_model.onnx", "feature_metadata.json", "calibration_params.json"]

/-- `main` (lines 213-267), from the first file write onward: step 3 writes
`claim_denial_model.onnx` via `export_to_onnx`, step 4 writes
`feature_metadata.json` via `export_feature_metadata`, and step 5 runs
`calibrate_and_export`. There is no exception handling and no cleanup, so a
calibration failure propagates while the files already written stay on
disk. Data synthesis, the train/validation split and training (steps 1-2,
which write nothing) are abstracted into the `solver`, `scores` and
`y_val` arguments; the result is the run's outcome paired with the list of
files written, in order. -/
def mainPipeline (solver : List ℝ → List ℕ → SigmoidCalibrator)
    (scores : List ℝ) (y_val : List ℕ) :
    Except CalibrationError Unit × List String :=
  let afterExport := export_to_onnx.2 ++ ["feature_metadata.json"]
  match calibrate_and_export solver scores y_val with
  | Except.error e => (Except.error e, afterExport)
  | Except.ok (_, calFiles) => (Except.ok (), afterExport ++ calFiles)

/-- C2 as stated is false on the code: on a run whose calibration stage
fails (here: a single-class validation label vector), `main` has already
written the model artifact and the feature metadata, so a failed run
retains two of the three files — neither none nor all three. -/
theorem c2_counterexample :
    ¬ (((mainPipeline solver0 scores0 [0, 0]).1.isOk = false) →
        ((mainPipeline solver0 scores0 [0, 0]).2 = []
         ∨ (mainPipeline solver0 scores0 [0, 0]).2 = all_three_artifacts)) := by
  intro h
  rcases h (by rfl) with h1 | h1 <;>
    simp [mainPipeline, calibrate_and_export, fit, export_to_onnx,
          all_three_artifacts, scores0] at h1

/-- C2 amended: the orchestrator is all-or-nothing only in the success
direction — a run succeeds if and only if the calibration fit does, a
successful run writes exactly the three artifacts in order, and a run
whose calibration stage fails still retains the model artifact and the
feature metadata (two partial artifacts), contrary to the claimed
all-or-nothing guarantee. -/
theorem c2_two_of_three_on_failure (solver : List ℝ → List ℕ → SigmoidCalibrator)
    (scores : List ℝ) (y_val : List ℕ) :
    ((mainPipeline solver scores y_val).1.isOk = (fit solver scores y_val).isOk)
    ∧ ((mainPipeline solver scores y_val).2 =
        if (fit solver scores y_val).isOk then all_three_artifacts
        else ["claim_denial_model.onnx", "feature_metadata.json"]) := by
  unfold mainPipeline calibrate_and_export
  cases hf : fit solver scores y_val <;>
    simp [hf, Except.isOk, Except.toBool, export_to_onnx, all_three_artifacts]
